import Mathlib

/-!
Shallow embedding of `src/main.rs` of the agcr repository: the
fetch-aggregate-classify-order pipeline for periodic student eligibility
reports, together with proofs of its specified properties.
-/

namespace Agcr

/-- IEEE-754 double-precision values as the source uses them.  The source only
ever compares scores (`>=`, `<`) and never performs arithmetic on them; every
finite double is exactly a rational number and double comparisons on finite
values agree with the rational order, so a double is embedded as a rational
together with the three non-finite value kinds.  All ordered comparisons
involving NaN are false, as in IEEE-754. -/
inductive F64 where
  | nan : F64
  | neginf : F64
  | inf : F64
  | val : ℚ → F64
deriving DecidableEq

/-- The IEEE `>=` comparison on doubles (Rust `f64` with `>=`). -/
def F64.fge : F64 → F64 → Bool
  | .nan, _ => false
  | _, .nan => false
  | .neginf, .neginf => true
  | .neginf, _ => false
  | _, .neginf => true
  | .inf, _ => true
  | _, .inf => false
  | .val a, .val b => decide (b ≤ a)

/-- The IEEE `<` comparison on doubles (Rust `f64` with `<`). -/
def F64.flt : F64 → F64 → Bool
  | .nan, _ => false
  | _, .nan => false
  | .neginf, .neginf => false
  | .neginf, _ => true
  | _, .neginf => false
  | .inf, _ => false
  | _, .inf => true
  | .val a, .val b => decide (a < b)

/-- `NameResponse` from the source: the identity record of one student. -/
structure NameResponse where
  first_name : String
  last_name : String
deriving DecidableEq

/-- `GpaResponse` from the source: the numeric-score record of one student. -/
structure GpaResponse where
  gpa_grade_reporting_total : F64
deriving DecidableEq

/-- `Flag` from the source: one configured range rule.  `priority` is `u8` in
the source; it is only ever stored and compared, never computed with, so it is
embedded as a natural number. -/
structure Flag where
  min_gpa : F64
  max_gpa : F64
  priority : Nat
  level : String
deriving DecidableEq

/-- `RenderableStudent` from the source: the reporting-ready record handed to
the template renderer. -/
structure RenderableStudent where
  full_name : String
  gpa : F64
  flags : List String
deriving DecidableEq

/-- Outcome of one HTTP GET in the source's per-student fetch: the request can
fail at transport level (`client.get(..).send()` erring inside `try_join!`),
its body can fail to parse as a JSON list (`resp.json().await` erring), or it
can deliver a parsed list of records. -/
inductive ReqOutcome (α : Type) where
  | netError : ReqOutcome α
  | decodeError : ReqOutcome α
  | ok : List α → ReqOutcome α
deriving DecidableEq

/-- The three distinct failure sources of the per-student fetch in the source:
a transport error propagated out of `try_join!`, a decode error propagated out
of `.json()`, and the `"Failed to fetch data for student ID: .."` error built
when a parsed list is empty. -/
inductive FetchError where
  | network : FetchError
  | decode : FetchError
  | notFound : Nat → FetchError
deriving DecidableEq

/-- The per-identifier async block inside `fetch_students_gpa_and_info`:
`try_join!` the two sends (a transport failure of either request errors
first), then decode the GPA body, then the info body, then take the first
element of each list, erring with the not-found message when either list is
empty.  On success the returned pair is `(info, gpa)`. -/
def fetch (id : Nat) (gpaReq : ReqOutcome GpaResponse) (infoReq : ReqOutcome NameResponse) :
    Except FetchError (NameResponse × GpaResponse) :=
  match gpaReq, infoReq with
  | .netError, _ => .error .network
  | _, .netError => .error .network
  | .decodeError, _ => .error .decode
  | _, .decodeError => .error .decode
  | .ok gpaList, .ok infoList =>
    match gpaList.head?, infoList.head? with
    | some gpa, some info => .ok (info, gpa)
    | _, _ => .error (.notFound id)

/-- Value-level behaviour of `futures::future::try_join_all`: succeed with the
list of all results, in input order, exactly when every future succeeds, and
fail when any future fails (which error value is surfaced depends on
completion timing; here it is the first one in input order). -/
def try_join_all {β : Type} : List (Except FetchError β) → Except FetchError (List β)
  | [] => .ok []
  | .error e :: _ => .error e
  | .ok b :: rest =>
    match try_join_all rest with
    | .ok bs => .ok (b :: bs)
    | .error e => .error e

/-- `fetch_students_gpa_and_info`: map every identifier to its two-request
fetch and join them all, all-or-nothing.  The remote data source is the
parameter `env`, giving for each identifier the outcome of its GPA request and
of its info request. -/
def fetch_students_gpa_and_info (env : Nat → ReqOutcome GpaResponse × ReqOutcome NameResponse)
    (ids : List Nat) : Except FetchError (List (NameResponse × GpaResponse)) :=
  try_join_all (ids.map fun id => fetch id (env id).1 (env id).2)

/-- The filter condition of the `flags_met` closure in `main`:
`gpa.gpa_grade_reporting_total >= flag.min_gpa &&
gpa.gpa_grade_reporting_total < flag.max_gpa`. -/
def flagMatches (score : F64) (flag : Flag) : Bool :=
  score.fge flag.min_gpa && score.flt flag.max_gpa

/-- `flags_met` from `main`: the rules whose half-open band contains the
score, kept in configuration order by `filter`. -/
def flags_met (flags : List Flag) (score : F64) : List Flag :=
  flags.filter (flagMatches score)

/-- The `student_flags` construction in `main`: each fetched pair is tupled
with its matched rules. -/
def student_flags (flags : List Flag) (pairs : List (NameResponse × GpaResponse)) :
    List (NameResponse × GpaResponse × List Flag) :=
  pairs.map fun p => (p.1, p.2, flags_met flags p.2.gpa_grade_reporting_total)

/-- The per-student sort key computed inside the `sort_by` comparator:
`x.2.iter().map(|flag| flag.priority).max().unwrap_or(0)`. -/
def maxFlagPriority (flags : List Flag) : Nat :=
  ((flags.map Flag.priority).max?).getD 0

/-- The `sort_by` comparator turned into the order relation used by the stable
sort: `b_priority.cmp(&a_priority)` is not-Greater exactly when
`b_priority ≤ a_priority`, the descending order on sort keys. -/
def flagOrder (a b : NameResponse × GpaResponse × List Flag) : Bool :=
  decide (maxFlagPriority b.2.2 ≤ maxFlagPriority a.2.2)

/-- `student_flags.sort_by(..)` in `main`: Rust's `sort_by` is a stable sort,
and the output of a stable sort under a total preorder comparator is uniquely
determined, so it is embedded as `mergeSort` with the comparator's not-Greater
relation. -/
def sort_student_flags (l : List (NameResponse × GpaResponse × List Flag)) :
    List (NameResponse × GpaResponse × List Flag) :=
  l.mergeSort flagOrder

/-- One iteration of the `renderable_students` loop in `main`. -/
def mkRenderable (x : NameResponse × GpaResponse × List Flag) : RenderableStudent :=
  { full_name := x.1.first_name ++ " " ++ x.1.last_name
  , gpa := x.2.1.gpa_grade_reporting_total
  , flags := x.2.2.map Flag.level }

/-- The per-report classify-order-package stage of `main`: build
`student_flags`, sort them by descending maximal matched priority, and build
the `renderable_students` list. -/
def assemble_report (flags : List Flag) (pairs : List (NameResponse × GpaResponse)) :
    List RenderableStudent :=
  (sort_student_flags (student_flags flags pairs)).map mkRenderable

/-- One whole report-definition iteration of `main`'s loop up to rendering:
fetch all students (the `.unwrap()` aborts on error, modelled as propagating
the error), then assemble; on a fetch error no renderable list exists. -/
def process_report (env : Nat → ReqOutcome GpaResponse × ReqOutcome NameResponse)
    (flags : List Flag) (ids : List Nat) : Except FetchError (List RenderableStudent) :=
  match fetch_students_gpa_and_info env ids with
  | .error e => .error e
  | .ok pairs => .ok (assemble_report flags pairs)

/-- No double is strictly below itself: IEEE `<` is irreflexive (also on the
non-finite values; on NaN every comparison is false anyway). -/
theorem F64.flt_irrefl (x : F64) : F64.flt x x = false := by
  cases x <;> simp [F64.flt]

/-- A double that is strictly below something satisfies `x >= x`; in
particular it is not NaN. -/
theorem F64.fge_self_of_flt (x y : F64) (h : F64.flt x y = true) : F64.fge x x = true := by
  cases x <;> cases y <;> simp_all [F64.flt, F64.fge]

/-- Counterexample to claim C1 as stated: for the (degenerate but
representable) rule with `min_gpa = max_gpa = 0`, the score `0` is exactly
equal to the rule's `min_gpa` and yet does not match, because the
upper-bound test `score < max_gpa` already fails. -/
theorem flag_match_min_boundary_cex :
    (F64.val 0) = (Flag.mk (F64.val 0) (F64.val 0) 1 "empty").min_gpa
    ∧ flagMatches (F64.val 0) (Flag.mk (F64.val 0) (F64.val 0) 1 "empty") = false := by
  exact ⟨rfl, by decide⟩

/-- Claim C1 (amended): a rule matches a score exactly when
`score >= min_gpa` and `score < max_gpa`; a score exactly equal to
`max_gpa` never matches; and a score exactly equal to `min_gpa` matches
provided the rule's band is non-empty, i.e. `min_gpa < max_gpa` (for a rule
with an empty band the minimum does not match, see the counterexample). -/
theorem flag_match_half_open (s : F64) (r : Flag) :
    (flagMatches s r = true ↔ (F64.fge s r.min_gpa = true ∧ F64.flt s r.max_gpa = true))
    ∧ flagMatches r.max_gpa r = false
    ∧ (F64.flt r.min_gpa r.max_gpa = true → flagMatches r.min_gpa r = true) := by
  refine ⟨?_, ?_, fun h => ?_⟩
  · simp [flagMatches]
  · simp [flagMatches, F64.flt_irrefl]
  · simp [flagMatches, h, F64.fge_self_of_flt r.min_gpa r.max_gpa h]

/-- Witness for the amended claim C1 at a concrete rule: the band
`[0, 4)` is non-empty and the score `0`, equal to its lower bound,
matches. -/
theorem flag_match_half_open_witness :
    F64.flt (F64.val 0) (F64.val 4) = true
    ∧ flagMatches (F64.val 0) (Flag.mk (F64.val 0) (F64.val 4) 1 "low") = true :=
  ⟨by decide, (flag_match_half_open (F64.val 0) (Flag.mk (F64.val 0) (F64.val 4) 1 "low")).2.2
    (by decide)⟩

/-- Claim C5: a single-student fetch succeeds exactly when both requests
deliver parsed lists and both lists are non-empty; on success the returned
pair is built from the first element of each list (`(info, gpa)` with `gpa`
the head of the GPA list and `info` the head of the info list). -/
theorem fetch_success_iff (id : Nat) (gpaReq : ReqOutcome GpaResponse)
    (infoReq : ReqOutcome NameResponse) :
    ((∃ r, fetch id gpaReq infoReq = Except.ok r) ↔
      ∃ gl il, gpaReq = ReqOutcome.ok gl ∧ infoReq = ReqOutcome.ok il ∧ gl ≠ [] ∧ il ≠ [])
    ∧ (∀ r, fetch id gpaReq infoReq = Except.ok r →
        ∃ gl il, gpaReq = ReqOutcome.ok gl ∧ infoReq = ReqOutcome.ok il ∧
          gl.head? = some r.2 ∧ il.head? = some r.1)
    ∧ (∀ (gpa : GpaResponse) gl (info : NameResponse) il,
        fetch id (ReqOutcome.ok (gpa :: gl)) (ReqOutcome.ok (info :: il))
          = Except.ok (info, gpa)) := by
  refine ⟨⟨?_, ?_⟩, ?_, ?_⟩
  · rintro ⟨r, hr⟩
    cases gpaReq with
    | netError => cases infoReq <;> simp [fetch] at hr
    | decodeError => cases infoReq <;> simp [fetch] at hr
    | ok gl =>
      cases infoReq with
      | netError => simp [fetch] at hr
      | decodeError => simp [fetch] at hr
      | ok il =>
        cases gl with
        | nil => cases il <;> simp [fetch] at hr
        | cons g gl =>
          cases il with
          | nil => simp [fetch] at hr
          | cons i il => exact ⟨g :: gl, i :: il, rfl, rfl, by simp, by simp⟩
  · rintro ⟨gl, il, rfl, rfl, hgl, hil⟩
    cases gl with
    | nil => simp at hgl
    | cons g gl =>
      cases il with
      | nil => simp at hil
      | cons i il => exact ⟨(i, g), rfl⟩
  · intro r hr
    cases gpaReq with
    | netError => cases infoReq <;> simp [fetch] at hr
    | decodeError => cases infoReq <;> simp [fetch] at hr
    | ok gl =>
      cases infoReq with
      | netError => simp [fetch] at hr
      | decodeError => simp [fetch] at hr
      | ok il =>
        cases gl with
        | nil => cases il <;> simp [fetch] at hr
        | cons g gl =>
          cases il with
          | nil => simp [fetch] at hr
          | cons i il =>
            refine ⟨g :: gl, i :: il, rfl, rfl, ?_, ?_⟩ <;>
              simp [fetch] at hr <;> simp [hr.symm]
  · intro gpa gl info il
    rfl

/-- Witness for claim C5 at concrete inputs: with a two-element GPA list and
a one-element info list, the fetch succeeds and returns the heads. -/
theorem fetch_success_iff_witness :
    fetch 7 (ReqOutcome.ok [GpaResponse.mk (F64.val 3), GpaResponse.mk (F64.val 1)])
        (ReqOutcome.ok [NameResponse.mk "Ada" "Lovelace"])
      = Except.ok (NameResponse.mk "Ada" "Lovelace", GpaResponse.mk (F64.val 3)) :=
  (fetch_success_iff 7
      (ReqOutcome.ok [GpaResponse.mk (F64.val 3), GpaResponse.mk (F64.val 1)])
      (ReqOutcome.ok [NameResponse.mk "Ada" "Lovelace"])).2.2
    (GpaResponse.mk (F64.val 3)) [GpaResponse.mk (F64.val 1)]
    (NameResponse.mk "Ada" "Lovelace") []

/-- Claim C6: the per-student fetch fails with the network kind on a
transport-level failure of either request, with the decode kind on a payload
parse failure (when neither request failed at transport level), with the
not-found kind when both lists parsed but either is empty, and these three
kinds are the only failures. -/
theorem fetch_error_kinds (id : Nat) (gpaReq : ReqOutcome GpaResponse)
    (infoReq : ReqOutcome NameResponse) :
    ((gpaReq = ReqOutcome.netError ∨ infoReq = ReqOutcome.netError) →
        fetch id gpaReq infoReq = Except.error FetchError.network)
    ∧ ((gpaReq ≠ ReqOutcome.netError ∧ infoReq ≠ ReqOutcome.netError ∧
        (gpaReq = ReqOutcome.decodeError ∨ infoReq = ReqOutcome.decodeError)) →
        fetch id gpaReq infoReq = Except.error FetchError.decode)
    ∧ (∀ gl il, gpaReq = ReqOutcome.ok gl → infoReq = ReqOutcome.ok il →
        (gl = [] ∨ il = []) →
        fetch id gpaReq infoReq = Except.error (FetchError.notFound id))
    ∧ (∀ e, fetch id gpaReq infoReq = Except.error e →
        (e = FetchError.network ∨ e = FetchError.decode ∨ e = FetchError.notFound id)) := by
  refine ⟨?_, ?_, ?_, ?_⟩
  · rintro (rfl | rfl)
    · cases infoReq <;> rfl
    · cases gpaReq <;> rfl
  · rintro ⟨hg, hi, (rfl | rfl)⟩
    · cases infoReq with
      | netError => exact absurd rfl hi
      | decodeError => rfl
      | ok il => rfl
    · cases gpaReq with
      | netError => exact absurd rfl hg
      | decodeError => rfl
      | ok gl => rfl
  · rintro gl il rfl rfl (rfl | rfl)
    · cases il <;> rfl
    · cases gl with
      | nil => rfl
      | cons g gl => rfl
  · intro e he
    cases gpaReq with
    | netError => simp [fetch] at he; simp [he.symm]
    | decodeError =>
      cases infoReq with
      | netError => simp [fetch] at he; simp [he.symm]
      | decodeError => simp [fetch] at he; simp [he.symm]
      | ok il => simp [fetch] at he; simp [he.symm]
    | ok gl =>
      cases infoReq with
      | netError => simp [fetch] at he; simp [he.symm]
      | decodeError => simp [fetch] at he; simp [he.symm]
      | ok il =>
        cases gl with
        | nil => simp [fetch] at he; simp [he.symm]
        | cons g gl =>
          cases il with
          | nil => simp [fetch] at he; simp [he.symm]
          | cons i il => simp [fetch] at he

/-- Witness for claim C6 at concrete inputs: a transport failure of the info
request alone yields the network kind, a decode failure of the GPA body (with
both transports fine) yields the decode kind, and an empty GPA list yields
the not-found kind. -/
theorem fetch_error_kinds_witness :
    fetch 5 (ReqOutcome.ok [GpaResponse.mk (F64.val 2)]) ReqOutcome.netError
      = Except.error FetchError.network
    ∧ fetch 5 ReqOutcome.decodeError (ReqOutcome.ok [NameResponse.mk "A" "B"])
      = Except.error FetchError.decode
    ∧ fetch 5 (ReqOutcome.ok []) (ReqOutcome.ok [NameResponse.mk "A" "B"])
      = Except.error (FetchError.notFound 5) :=
  ⟨(fetch_error_kinds 5 (ReqOutcome.ok [GpaResponse.mk (F64.val 2)])
      ReqOutcome.netError).1 (Or.inr rfl),
   (fetch_error_kinds 5 ReqOutcome.decodeError
      (ReqOutcome.ok [NameResponse.mk "A" "B"])).2.1
      ⟨by simp, by simp, Or.inl rfl⟩,
   (fetch_error_kinds 5 (ReqOutcome.ok [])
      (ReqOutcome.ok [NameResponse.mk "A" "B"])).2.2.1 [] [NameResponse.mk "A" "B"]
      rfl rfl (Or.inl rfl)⟩

/-- `try_join_all` fails as soon as any joined result is an error. -/
theorem try_join_all_error_of_mem {β : Type} (rs : List (Except FetchError β)) (e : FetchError)
    (h : Except.error e ∈ rs) : ∃ e2, try_join_all rs = Except.error e2 := by
  induction rs with
  | nil => simp at h
  | cons r rest ih =>
    cases r with
    | error e3 => exact ⟨e3, rfl⟩
    | ok b =>
      simp only [List.mem_cons] at h
      rcases h with h | h
      · simp at h
      · obtain ⟨e2, h2⟩ := ih h
        exact ⟨e2, by simp [try_join_all, h2]⟩

/-- `try_join_all` of a list of successes is the success of the list. -/
theorem try_join_all_map_ok {β : Type} (bs : List β) :
    try_join_all (bs.map Except.ok) = Except.ok bs := by
  induction bs with
  | nil => rfl
  | cons b rest ih => simp [try_join_all, ih]

/-- Claim C2: aggregation is all-or-nothing.  If the fetch of any single
identifier in the list fails, `fetch_students_gpa_and_info` returns an error
and never any result list (in particular never one of length N-1), and the
whole report definition yields no renderable list. -/
theorem fetch_all_all_or_nothing (env : Nat → ReqOutcome GpaResponse × ReqOutcome NameResponse)
    (flags : List Flag) (ids : List Nat) (id : Nat) (e : FetchError)
    (hid : id ∈ ids) (he : fetch id (env id).1 (env id).2 = Except.error e) :
    (∃ e2, fetch_students_gpa_and_info env ids = Except.error e2)
    ∧ (∀ l, fetch_students_gpa_and_info env ids ≠ Except.ok l)
    ∧ (∀ l, process_report env flags ids ≠ Except.ok l) := by
  have hmem : Except.error e ∈ ids.map (fun i => fetch i (env i).1 (env i).2) :=
    List.mem_map.mpr ⟨id, hid, he⟩
  obtain ⟨e2, h2⟩ := try_join_all_error_of_mem _ e hmem
  have herr : fetch_students_gpa_and_info env ids = Except.error e2 := h2
  refine ⟨⟨e2, herr⟩, ?_, ?_⟩
  · intro l hl
    rw [herr] at hl
    exact Except.noConfusion hl
  · intro l hl
    unfold process_report at hl
    rw [herr] at hl
    exact Except.noConfusion hl

/-- A concrete remote data source for the witnesses: every identifier
resolves, except identifier `2`, whose GPA request fails at transport
level. -/
def envFail2 : Nat → ReqOutcome GpaResponse × ReqOutcome NameResponse := fun i =>
  if i = 2 then (ReqOutcome.netError, ReqOutcome.ok [NameResponse.mk "Bob" "B"])
  else (ReqOutcome.ok [GpaResponse.mk (F64.val 3)], ReqOutcome.ok [NameResponse.mk "Stu" "Dent"])

/-- Witness for claim C2 at concrete inputs: with identifier `2` failing
among `[1, 2, 3]`, the whole aggregation errors. -/
theorem fetch_all_all_or_nothing_witness :
    ∃ e2, fetch_students_gpa_and_info envFail2 [1, 2, 3] = Except.error e2 :=
  (fetch_all_all_or_nothing envFail2 [] [1, 2, 3] 2 FetchError.network
    (by decide) rfl).1

/-- Claim C4: when every identifier's fetch succeeds, the aggregation
succeeds and returns the fetched pairs in the same order as the input
identifier sequence (the embedding of `try_join_all` is completion-order
independent by construction: it always pairs the i-th result with the i-th
input). -/
theorem fetch_all_input_order (env : Nat → ReqOutcome GpaResponse × ReqOutcome NameResponse)
    (g : Nat → NameResponse × GpaResponse) (ids : List Nat)
    (h : ∀ id ∈ ids, fetch id (env id).1 (env id).2 = Except.ok (g id)) :
    fetch_students_gpa_and_info env ids = Except.ok (ids.map g) := by
  unfold fetch_students_gpa_and_info
  have hmap : ids.map (fun i => fetch i (env i).1 (env i).2) = (ids.map g).map Except.ok := by
    rw [List.map_map]
    exact List.map_congr_left h
  rw [hmap, try_join_all_map_ok]

/-- A concrete all-success remote data source for the witnesses. -/
def envAllOk : Nat → ReqOutcome GpaResponse × ReqOutcome NameResponse := fun i =>
  (ReqOutcome.ok [GpaResponse.mk (F64.val i)], ReqOutcome.ok [NameResponse.mk "Stu" "Dent"])

/-- The per-identifier pair `envAllOk` resolves to. -/
def pairAllOk : Nat → NameResponse × GpaResponse := fun i =>
  (NameResponse.mk "Stu" "Dent", GpaResponse.mk (F64.val i))

/-- Witness for claim C4 at concrete inputs: identifiers `[3, 1, 2]`, all
succeeding, aggregate in exactly that order. -/
theorem fetch_all_input_order_witness :
    fetch_students_gpa_and_info envAllOk [3, 1, 2]
      = Except.ok [pairAllOk 3, pairAllOk 1, pairAllOk 2] :=
  fetch_all_input_order envAllOk pairAllOk [3, 1, 2] (fun _ _ => rfl)

/-- Claim C7: the rule evaluator returns exactly the matching rules, as a
subsequence of the configured rule list (hence in input relative order, with
no reordering or priority sorting), and the reporting record's label list is
the `level` field of each matched rule in that matched-rule order. -/
theorem flags_met_order (s : F64) (rules : List Flag) (n : NameResponse) (g : GpaResponse) :
    List.Sublist (flags_met rules s) rules
    ∧ (∀ r ∈ flags_met rules s, flagMatches s r = true)
    ∧ (∀ r ∈ rules, flagMatches s r = true → r ∈ flags_met rules s)
    ∧ (mkRenderable (n, g, flags_met rules s)).flags = (flags_met rules s).map Flag.level := by
  refine ⟨List.filter_sublist rules, ?_, ?_, rfl⟩
  · intro r hr
    exact (List.mem_filter.mp hr).2
  · intro r hr hm
    exact List.mem_filter.mpr ⟨hr, hm⟩

/-- Witness for claim C7 at concrete inputs: with two overlapping bands
`[0, 2)` and `[1, 3)` and the score `1` inside both, the second rule is
indeed among the matched rules. -/
theorem flags_met_order_witness :
    Flag.mk (F64.val 1) (F64.val 3) 5 "mid" ∈
      flags_met [Flag.mk (F64.val 0) (F64.val 2) 1 "low",
        Flag.mk (F64.val 1) (F64.val 3) 5 "mid"] (F64.val 1) :=
  (flags_met_order (F64.val 1)
      [Flag.mk (F64.val 0) (F64.val 2) 1 "low", Flag.mk (F64.val 1) (F64.val 3) 5 "mid"]
      (NameResponse.mk "A" "A") (GpaResponse.mk (F64.val 1))).2.2.1
    (Flag.mk (F64.val 1) (F64.val 3) 5 "mid") (by decide) (by decide)

/-- A NaN score is below no bound: the lower-bound test is already false. -/
theorem F64.fge_nan_left (x : F64) : F64.fge F64.nan x = false := by
  cases x <;> rfl

/-- Claim C9: a NaN score matches no range rule (both bound comparisons are
false on NaN), so such a student's matched-rule list is empty and its sort
key is `0`, yet the student still appears in the assembled output. -/
theorem nan_score_unmatched_kept (rules : List Flag) (r : Flag) (n : NameResponse)
    (pairs : List (NameResponse × GpaResponse))
    (hmem : (n, GpaResponse.mk F64.nan) ∈ pairs) :
    flagMatches F64.nan r = false
    ∧ flags_met rules F64.nan = []
    ∧ maxFlagPriority (flags_met rules F64.nan) = 0
    ∧ mkRenderable (n, GpaResponse.mk F64.nan, []) ∈ assemble_report rules pairs := by
  have hone : ∀ q : Flag, flagMatches F64.nan q = false := fun q => by
    simp [flagMatches, F64.fge_nan_left]
  have hnil : flags_met rules F64.nan = [] := by
    simp only [flags_met]
    rw [List.filter_eq_nil_iff]
    intro q hq
    simp [hone q]
  refine ⟨hone r, hnil, by rw [hnil]; rfl, ?_⟩
  have h1 : (n, GpaResponse.mk F64.nan, flags_met rules F64.nan) ∈ student_flags rules pairs :=
    List.mem_map_of_mem
      (fun p => (p.1, p.2, flags_met rules p.2.gpa_grade_reporting_total)) hmem
  have h2 : (n, GpaResponse.mk F64.nan, flags_met rules F64.nan) ∈
      sort_student_flags (student_flags rules pairs) := by
    unfold sort_student_flags
    exact List.mem_mergeSort.mpr h1
  have h3 := List.mem_map_of_mem mkRenderable h2
  rw [hnil] at h3
  exact h3

/-- Witness for claim C9 at concrete inputs: a student with NaN score, alone
against the band `[0, 4)`, matches nothing but is still rendered. -/
theorem nan_score_unmatched_kept_witness :
    mkRenderable (NameResponse.mk "Nan" "Ny", GpaResponse.mk F64.nan, []) ∈
      assemble_report [Flag.mk (F64.val 0) (F64.val 4) 1 "low"]
        [(NameResponse.mk "Nan" "Ny", GpaResponse.mk F64.nan)] :=
  (nan_score_unmatched_kept [Flag.mk (F64.val 0) (F64.val 4) 1 "low"]
      (Flag.mk (F64.val 0) (F64.val 4) 1 "low") (NameResponse.mk "Nan" "Ny")
      [(NameResponse.mk "Nan" "Ny", GpaResponse.mk F64.nan)] (by simp)).2.2.2

/-- The sort comparator is transitive. -/
theorem flagOrder_trans (a b c : NameResponse × GpaResponse × List Flag)
    (h1 : flagOrder a b) (h2 : flagOrder b c) : flagOrder a c := by
  simp only [flagOrder, decide_eq_true_eq] at h1 h2 ⊢
  exact le_trans h2 h1

/-- The sort comparator is total. -/
theorem flagOrder_total (a b : NameResponse × GpaResponse × List Flag) :
    flagOrder a b || flagOrder b a := by
  simp only [flagOrder]
  rcases Nat.le_total (maxFlagPriority b.2.2) (maxFlagPriority a.2.2) with h | h <;> simp [h]

/-- Stability of `mergeSort` phrased through filters: the elements selected by
`p` keep exactly their original relative order whenever any two `p`-elements
are related by the comparator (which holds for the elements of one equal-key
class under a key comparator). -/
theorem filter_mergeSort_eq_filter {α : Type} (le : α → α → Bool)
    (trans : ∀ a b c : α, le a b → le b c → le a c)
    (total : ∀ a b : α, le a b || le b a)
    (p : α → Bool) (l : List α)
    (hp : ∀ x y, p x = true → p y = true → le x y = true) :
    (l.mergeSort le).filter p = l.filter p := by
  have hmem : ∀ x ∈ l.filter p, p x = true := fun x hx => (List.mem_filter.mp hx).2
  have hc : (l.filter p).Pairwise (fun a b => le a b = true) :=
    List.pairwise_of_forall_mem_list fun a ha b hb => hp a b (hmem a ha) (hmem b hb)
  have hsub : List.Sublist (l.filter p) (l.mergeSort le) :=
    List.sublist_mergeSort trans total hc (List.filter_sublist l)
  have hsub2 : List.Sublist (l.filter p) ((l.mergeSort le).filter p) := by
    have h2 := List.Sublist.filter p hsub
    rwa [List.filter_eq_self.mpr hmem] at h2
  have hperm : List.Perm ((l.mergeSort le).filter p) (l.filter p) :=
    List.Perm.filter p (List.mergeSort_perm l le)
  exact (List.Sublist.eq_of_length hsub2 hperm.length_eq.symm).symm

/-- Every matched rule's priority is bounded by the student's sort key. -/
theorem le_maxFlagPriority (fl : List Flag) (f : Flag) (hf : f ∈ fl) :
    f.priority ≤ maxFlagPriority fl :=
  List.le_max?_getD_of_mem (List.mem_map_of_mem Flag.priority hf)

/-- For a non-empty matched-rule list, the sort key is attained by one of the
matched rules: it is the maximum matched priority. -/
theorem maxFlagPriority_mem (fl : List Flag) (hne : fl ≠ []) :
    ∃ f ∈ fl, maxFlagPriority fl = f.priority := by
  unfold maxFlagPriority
  cases hmax : (fl.map Flag.priority).max? with
  | none =>
    rw [List.max?_eq_none_iff] at hmax
    rw [List.map_eq_nil_iff] at hmax
    exact absurd hmax hne
  | some m =>
    obtain ⟨hm, -⟩ := List.max?_eq_some_iff'.mp hmax
    obtain ⟨f, hf, hfm⟩ := List.mem_map.mp hm
    exact ⟨f, hf, by simp [hfm]⟩

/-- Claim C3: the assembler sorts the per-report records by sort key
descending, where the sort key is the maximum priority among the student's
matched rules and `0` when no rule matched; unmatched students are kept (the
sorted list is a permutation of the input), and the sort is stable: within
every equal-key class (including key `0`) the original aggregation order is
preserved, stated as the filter on each key value being unchanged. -/
theorem assembler_stable_priority_sort (rules : List Flag)
    (pairs : List (NameResponse × GpaResponse)) :
    List.Perm (sort_student_flags (student_flags rules pairs)) (student_flags rules pairs)
    ∧ (sort_student_flags (student_flags rules pairs)).Pairwise
        (fun a b => maxFlagPriority b.2.2 ≤ maxFlagPriority a.2.2)
    ∧ (∀ k : Nat,
        (sort_student_flags (student_flags rules pairs)).filter
            (fun x => decide (maxFlagPriority x.2.2 = k))
          = (student_flags rules pairs).filter
            (fun x => decide (maxFlagPriority x.2.2 = k)))
    ∧ (∀ fl : List Flag,
        (fl = [] → maxFlagPriority fl = 0)
        ∧ (∀ f ∈ fl, f.priority ≤ maxFlagPriority fl)
        ∧ (fl ≠ [] → ∃ f ∈ fl, maxFlagPriority fl = f.priority)) := by
  refine ⟨List.mergeSort_perm _ _, ?_, ?_, ?_⟩
  · have h := List.sorted_mergeSort flagOrder_trans flagOrder_total
      (student_flags rules pairs)
    exact h.imp fun hab => by simpa [flagOrder] using hab
  · intro k
    refine filter_mergeSort_eq_filter flagOrder flagOrder_trans flagOrder_total
      (fun x => decide (maxFlagPriority x.2.2 = k)) (student_flags rules pairs)
      (fun x y hx hy => ?_)
    simp only [decide_eq_true_eq] at hx hy
    simp [flagOrder, hx, hy]
  · intro fl
    exact ⟨fun h => by rw [h]; rfl, le_maxFlagPriority fl, maxFlagPriority_mem fl⟩

/-- The rule set of the stable-sort witness: a priority-5 band `[0, 4)` and a
priority-9 band `[4, 5)`. -/
def rulesW : List Flag :=
  [Flag.mk (F64.val 0) (F64.val 4) 5 "five", Flag.mk (F64.val 4) (F64.val 5) 9 "nine"]

/-- The aggregated pairs of the stable-sort witness, in input order:
A and B match the priority-5 band, C the priority-9 band, D nothing. -/
def pairsW : List (NameResponse × GpaResponse) :=
  [(NameResponse.mk "A" "A", GpaResponse.mk (F64.val 1)),
   (NameResponse.mk "B" "B", GpaResponse.mk (F64.val 2)),
   (NameResponse.mk "C" "C", GpaResponse.mk (F64.val 4)),
   (NameResponse.mk "D" "D", GpaResponse.mk (F64.val 10))]

/-- Witness for claim C3 at concrete inputs: the key-5 class keeps its
original order (stability at key 5), and on a concrete non-empty matched-rule
list the sort key is attained by a matched rule. -/
theorem assembler_stable_priority_sort_witness :
    ((sort_student_flags (student_flags rulesW pairsW)).filter
        (fun x => decide (maxFlagPriority x.2.2 = 5))
      = (student_flags rulesW pairsW).filter
        (fun x => decide (maxFlagPriority x.2.2 = 5)))
    ∧ (∃ f ∈ [Flag.mk (F64.val 0) (F64.val 4) 5 "five"],
        maxFlagPriority [Flag.mk (F64.val 0) (F64.val 4) 5 "five"] = f.priority) :=
  ⟨(assembler_stable_priority_sort rulesW pairsW).2.2.1 5,
   ((assembler_stable_priority_sort rulesW pairsW).2.2.2
      [Flag.mk (F64.val 0) (F64.val 4) 5 "five"]).2.2 (by simp)⟩

/-- Mapping a list can only merge together, never split, the occurrences of
one element: the image of `a` occurs at least as often as `a` did. -/
theorem count_le_count_map {α β : Type} [DecidableEq α] [DecidableEq β]
    (f : α → β) (l : List α) (a : α) : l.count a ≤ (l.map f).count (f a) := by
  induction l with
  | nil => simp
  | cons x xs ih =>
    simp only [List.map_cons, List.count_cons]
    have hif : (if x == a then 1 else 0) ≤ (if f x == f a then 1 else 0) := by
      by_cases hxa : x = a
      · simp [hxa]
      · simp only [beq_iff_eq, hxa, if_false]
        exact Nat.zero_le _
    omega

/-- Claim C8: duplicate identifiers are not deduplicated.  When every fetch
succeeds, an identifier list with repetitions aggregates one pair per
occurrence (in input order), the assembled report has exactly one row per
occurrence, and an identifier occurring k times contributes at least k equal
rows. -/
theorem duplicates_kept (env : Nat → ReqOutcome GpaResponse × ReqOutcome NameResponse)
    (g : Nat → NameResponse × GpaResponse) (rules : List Flag) (ids : List Nat) (i : Nat)
    (h : ∀ id ∈ ids, fetch id (env id).1 (env id).2 = Except.ok (g id)) :
    fetch_students_gpa_and_info env ids = Except.ok (ids.map g)
    ∧ (assemble_report rules (ids.map g)).length = ids.length
    ∧ ids.count i ≤ (assemble_report rules (ids.map g)).count
        (mkRenderable ((g i).1, (g i).2, flags_met rules (g i).2.gpa_grade_reporting_total)) := by
  refine ⟨fetch_all_input_order env g ids h, ?_, ?_⟩
  · simp [assemble_report, sort_student_flags, student_flags]
  · have hperm : List.Perm (assemble_report rules (ids.map g))
        ((student_flags rules (ids.map g)).map mkRenderable) :=
      List.Perm.map mkRenderable (List.mergeSort_perm _ _)
    have hmm : (student_flags rules (ids.map g)).map mkRenderable
        = ids.map (fun j => mkRenderable ((g j).1, (g j).2,
            flags_met rules (g j).2.gpa_grade_reporting_total)) := by
      simp only [student_flags, List.map_map]
      rfl
    have hcount := hperm.count_eq (mkRenderable ((g i).1, (g i).2,
      flags_met rules (g i).2.gpa_grade_reporting_total))
    rw [hcount, hmm]
    exact count_le_count_map
      (fun j => mkRenderable ((g j).1, (g j).2,
        flags_met rules (g j).2.gpa_grade_reporting_total)) ids i

/-- Witness for claim C8 at concrete inputs: the identifier `7` listed twice
yields two fetched pairs and two report rows. -/
theorem duplicates_kept_witness :
    fetch_students_gpa_and_info envAllOk [7, 7] = Except.ok [pairAllOk 7, pairAllOk 7]
    ∧ (assemble_report [] ([7, 7].map pairAllOk)).length = 2
    ∧ [7, 7].count 7 ≤ (assemble_report [] ([7, 7].map pairAllOk)).count
        (mkRenderable ((pairAllOk 7).1, (pairAllOk 7).2,
          flags_met [] (pairAllOk 7).2.gpa_grade_reporting_total)) := by
  have h := duplicates_kept envAllOk pairAllOk [] [7, 7] 7 (fun _ _ => rfl)
  exact ⟨h.1, h.2.1, h.2.2⟩

/-- Claim C10: on the empty identifier list, `fetch_students_gpa_and_info`
always succeeds with the empty result list, whatever the remote data source
does; it never returns an error on empty input. -/
theorem fetch_all_empty_ok (env : Nat → ReqOutcome GpaResponse × ReqOutcome NameResponse) :
    fetch_students_gpa_and_info env [] = .ok [] := rfl

end Agcr
